import Mathlib

/-!
Shallow embedding of the Visual Regression Comparator of the ValidateMe
repository (file src/core/VisualRegression.js, class VisualRegressionTester)
together with the pieces of its runtime environment that decide the spec
claims: the baseline directory, the diff-artifact directory, the PNG decoding
step and the pixelmatch library contract.

Filesystem model: the baseline store is an association list from filename to
file content; the diff store is the list of artifact paths written so far.
A capture carries its path and an optional content, where none models a path
whose bytes cannot be read. JS numbers that hold percentages are modelled as
rationals; counters as naturals; millisecond times as integers.
-/

namespace ValidateMe

/-- Content of one on-disk image file: either a well-formed PNG with its
dimensions and RGBA byte buffer, or bytes that no PNG parser accepts. -/
inductive FileContent
  | png (width height : Nat) (data : List Nat)
  | corrupt
deriving DecidableEq

/-- A decoded raster image as pngjs hands it to the comparator. -/
structure PNGImage where
  width : Nat
  height : Nat
  data : List Nat
deriving DecidableEq

/-- Result of fs.access on a path: success, file-not-found, or another
input-output error such as a permission failure. -/
inductive AccessResult
  | ok
  | enoent
  | otherError (msg : String)
deriving DecidableEq

/-- The status strings pushed into results.comparisons. -/
inductive Status
  | new
  | passed
  | failed
  | error
deriving DecidableEq

/-- One record of results.comparisons. -/
structure Outcome where
  filename : String
  status : Status
  baseline : String
  current : String
  diff : Option String
  diffPercentage : ℚ
  error : Option String
deriving DecidableEq

/-- The results object of compareScreenshots. -/
structure Results where
  total : Nat
  passed : Nat
  failed : Nat
  new : Nat
  comparisons : List Outcome
deriving DecidableEq

/-- A captured screenshot: its path and the content found at that path
(none when the path cannot be read). -/
structure Screenshot where
  path : String
  content : Option FileContent
deriving DecidableEq

/-- The mutable directory state the comparator touches: the baseline store
(filename to content) and the list of diff-artifact paths written. -/
structure VRState where
  baselines : List (String × FileContent)
  diffs : List String
deriving DecidableEq

/-- The ambient environment of one tester instance: the PNG decoding step,
the pixel counter at the core of pixelmatch, and the two directories fixed
by the constructor. -/
structure Env where
  load : Option FileContent → Except String PNGImage
  dc : List Nat → List Nat → Nat → Nat → Nat
  baselineDir : String
  diffDir : String

/-- path.basename: the final path component, the text after the last slash. -/
def basename (p : String) : String :=
  String.mk ((p.data.reverse.takeWhile (fun c => c != '/')).reverse)

/-- path.join(this.baselineDir, filename). -/
def baselineFilePath (baselineDir filename : String) : String :=
  baselineDir ++ "/" ++ filename

/-- path.join(this.diffDir, runId-filename): the diff artifact path. -/
def diffArtifactPath (diffDir runId filename : String) : String :=
  diffDir ++ "/" ++ runId ++ "-" ++ filename

/-- The constructor line this.diffDir = path.join(reportsDir, diffs). -/
def mkDiffDir (reportsDir : String) : String :=
  reportsDir ++ "/diffs"

/-- fileExists: try await fs.access(filePath); return true, catch return
false. The catch clause swallows every access failure, not-found or
otherwise, so the method always returns normally. -/
def fileExists (r : AccessResult) : Except String Bool :=
  match r with
  | AccessResult.ok => Except.ok true
  | AccessResult.enoent => Except.ok false
  | AccessResult.otherError _ => Except.ok false

/-- The fs.access result that the baseline store yields for a filename:
success exactly when a baseline file of that name exists. -/
def fsAccess (baselines : List (String × FileContent)) (f : String) : AccessResult :=
  if (baselines.lookup f).isSome then AccessResult.ok else AccessResult.enoent

/-- loadPNG as the program executes it. The body obtains its stream from
fs.createReadStream, but fs is bound to the fs/promises module (line 3 of
the source file), which exports no createReadStream, so the Promise executor
raises TypeError and the returned promise rejects for every path. -/
def loadPNG (_ : Option FileContent) : Except String PNGImage :=
  Except.error "fs.createReadStream is not a function"

/-- The decode behaviour the loadPNG body expresses once a working read
stream is substituted: pipe the file bytes into the pngjs parser, resolve
with the parsed image on the parsed event, reject on a stream or parse
error. Kept for analysing the comparison pipeline independently of the
fs/promises slip. -/
def loadPNGDecode : Option FileContent → Except String PNGImage
  | some (FileContent.png w h d) => Except.ok { width := w, height := h, data := d }
  | some FileContent.corrupt => Except.error "Invalid file signature"
  | none => Except.error "ENOENT: no such file or directory"

/-- The RGBA quadruple of pixel i in a flat byte buffer. -/
def quadAt (d : List Nat) (i : Nat) : List Nat :=
  (d.drop (4 * i)).take 4

/-- A concrete admissible instance of the pixelmatch pixel counter: the
number of pixel positions whose RGBA quadruples differ. The library applies
a perceptual threshold on top of this, but on identical buffers every
admissible counter, this one included, returns zero. -/
def exactDiffCount (d1 d2 : List Nat) (width height : Nat) : Nat :=
  (List.range (width * height)).countP (fun i => decide (quadAt d1 i ≠ quadAt d2 i))

/-- The pixelmatch library contract: it throws when the two buffers have
different lengths, and when the buffer length disagrees with
width * height * 4; otherwise it returns the count of differing pixels,
whose perceptual computation is abstracted as the counter dc. -/
def pixelmatch (dc : List Nat → List Nat → Nat → Nat → Nat)
    (img1 img2 : List Nat) (width height : Nat) : Except String Nat :=
  if img1.length ≠ img2.length then Except.error "Image sizes do not match"
  else if img1.length ≠ width * height * 4 then
    Except.error "Image data size does not match width/height"
  else Except.ok (dc img1 img2 width height)

/-- The value compareImages resolves with. -/
structure CompareResult where
  passed : Bool
  diffPixels : Nat
  diffPercentage : ℚ
  diffPath : Option String
deriving DecidableEq

/-- compareImages: decode the current image, then the baseline, run
pixelmatch with the current image dimensions, set
diffPercentage = diffPixels / (width * height) * 100 and passed iff
diffPercentage < 5. The diff artifact is saved exactly when not passed;
the state change of that write is recorded by the caller, see
processScreenshot. -/
def compareImages (env : Env) (current : Option FileContent)
    (baselineContent : FileContent) (diffPath : String) :
    Except String CompareResult :=
  match env.load current with
  | Except.error msg => Except.error msg
  | Except.ok c =>
    match env.load (some baselineContent) with
    | Except.error msg => Except.error msg
    | Except.ok b =>
      match pixelmatch env.dc c.data b.data c.width c.height with
      | Except.error msg => Except.error msg
      | Except.ok diffPixels =>
        Except.ok
          { passed := decide (((diffPixels : ℚ) / ((c.width : ℚ) * (c.height : ℚ)) * 100) < 5)
            diffPixels := diffPixels
            diffPercentage := (diffPixels : ℚ) / ((c.width : ℚ) * (c.height : ℚ)) * 100
            diffPath :=
              if ((diffPixels : ℚ) / ((c.width : ℚ) * (c.height : ℚ)) * 100) < 5 then none
              else some diffPath }

/-- The outcome the catch block of the compareScreenshots loop pushes:
status error, diffPercentage pinned to 100, the message captured. -/
def mkErrorOutcome (filename baselinePath currentPath msg : String) : Outcome :=
  { filename := filename
    status := Status.error
    baseline := baselinePath
    current := currentPath
    diff := none
    diffPercentage := 100
    error := some msg }

/-- One iteration of the compareScreenshots loop. The baseline existence
test is fileExists on the baseline path, which never throws and is the
lookup test on the store (lemma fileExists_fsAccess below). If no baseline
exists the capture is copied to the baseline path and classified new; a
failing copy (unreadable capture path) is caught and classified error. If a
baseline exists, compareImages decides passed or failed, the failed case
records the diff artifact write, and a rejection of compareImages is caught
and classified error. -/
def processScreenshot (env : Env) (runId : String) (st : VRState)
    (shot : Screenshot) : VRState × Outcome :=
  match st.baselines.lookup (basename shot.path) with
  | none =>
    match shot.content with
    | some c =>
      ({ st with baselines := (basename shot.path, c) :: st.baselines },
       { filename := basename shot.path
         status := Status.new
         baseline := baselineFilePath env.baselineDir (basename shot.path)
         current := shot.path
         diff := none
         diffPercentage := 0
         error := none })
    | none =>
      (st, mkErrorOutcome (basename shot.path)
        (baselineFilePath env.baselineDir (basename shot.path)) shot.path
        "ENOENT: no such file or directory, copyfile")
  | some bc =>
    match compareImages env shot.content bc
        (diffArtifactPath env.diffDir runId (basename shot.path)) with
    | Except.ok r =>
      if r.passed then
        (st,
         { filename := basename shot.path
           status := Status.passed
           baseline := baselineFilePath env.baselineDir (basename shot.path)
           current := shot.path
           diff := none
           diffPercentage := r.diffPercentage
           error := none })
      else
        ({ st with diffs := st.diffs ++ [diffArtifactPath env.diffDir runId (basename shot.path)] },
         { filename := basename shot.path
           status := Status.failed
           baseline := baselineFilePath env.baselineDir (basename shot.path)
           current := shot.path
           diff := some (diffArtifactPath env.diffDir runId (basename shot.path))
           diffPercentage := r.diffPercentage
           error := none })
    | Except.error msg =>
      (st, mkErrorOutcome (basename shot.path)
        (baselineFilePath env.baselineDir (basename shot.path)) shot.path msg)

/-- Helper predicate: the statuses whose outcomes increment the failed
counter, namely failed and error. -/
def isFailedOrError (o : Outcome) : Bool :=
  decide (o.status = Status.failed) || decide (o.status = Status.error)

/-- The counter and list updates of one loop iteration: results.total is
incremented for every screenshot, and the branch that pushed the outcome
also incremented the counter that matches its status (new, passed, failed,
with the catch branch incrementing failed for status error). -/
def pushOutcome (r : Results) (o : Outcome) : Results :=
  { total := r.total + 1
    passed := r.passed + (if o.status = Status.passed then 1 else 0)
    failed := r.failed + (if isFailedOrError o then 1 else 0)
    new := r.new + (if o.status = Status.new then 1 else 0)
    comparisons := r.comparisons ++ [o] }

/-- The zero-initialised results object. -/
def emptyResults : Results :=
  { total := 0, passed := 0, failed := 0, new := 0, comparisons := [] }

/-- The for-of loop of compareScreenshots, threading the directory state
and the results accumulator through the captures in order. -/
def runLoop (env : Env) (runId : String) :
    VRState → Results → List Screenshot → VRState × Results
  | st, acc, [] => (st, acc)
  | st, acc, shot :: rest =>
    runLoop env runId (processScreenshot env runId st shot).1
      (pushOutcome acc (processScreenshot env runId st shot).2) rest

/-- compareScreenshots(currentScreenshots, runId): iterate the captures from
zeroed counters and return the final directory state with the summary. -/
def compareScreenshots (env : Env) (st : VRState) (shots : List Screenshot)
    (runId : String) : VRState × Results :=
  runLoop env runId st emptyResults shots

/-- The directory state after processing a list of captures; projection of
runLoop used by the lemmas (agreement proved in runLoop_fst). -/
def runState (env : Env) (runId : String) : VRState → List Screenshot → VRState
  | st, [] => st
  | st, shot :: rest => runState env runId (processScreenshot env runId st shot).1 rest

/-- The outcomes produced for a list of captures, in input order; projection
of runLoop used by the lemmas (agreement proved in runLoop_comparisons). -/
def runOutcomes (env : Env) (runId : String) : VRState → List Screenshot → List Outcome
  | _, [] => []
  | st, shot :: rest =>
    (processScreenshot env runId st shot).2 ::
      runOutcomes env runId (processScreenshot env runId st shot).1 rest

/-- One entry of the diff-artifact directory with its mtime in epoch
milliseconds, together with the behaviour of this scan at this file:
statOk is whether fs.stat resolves for it and unlinkOk whether fs.unlink
does (either can reject, for instance when another process removed the
file between readdir and stat, or on a permission failure). -/
structure DiffFile where
  name : String
  mtime : Int
  statOk : Bool
  unlinkOk : Bool
deriving DecidableEq

/-- The age test of the cleanup loop: now - stats.mtime.getTime() > maxAge. -/
def isExpired (now : Int) (maxAge : WithTop Int) (f : DiffFile) : Bool :=
  decide (((now - f.mtime : Int) : WithTop Int) > maxAge)

/-- The for-of loop of cleanupOldDiffs over the readdir listing: stat the
file, and when now - mtime > maxAge unlink it. A rejection of stat or
unlink throws out of the loop to the surrounding catch, so the files
already unlinked stay deleted while the faulting file and the unvisited
tail remain. Returns the directory contents when the loop ends together
with the rejection message, if any, that the catch receives. -/
def cleanupLoop (now : Int) (maxAge : WithTop Int) :
    List DiffFile → List DiffFile × Option String
  | [] => ([], none)
  | f :: rest =>
    if f.statOk then
      if isExpired now maxAge f then
        if f.unlinkOk then cleanupLoop now maxAge rest
        else (f :: rest, some "EACCES: permission denied, unlink")
      else
        ((cleanupLoop now maxAge rest).1.cons f, (cleanupLoop now maxAge rest).2)
    else (f :: rest, some "ENOENT: no such file or directory, stat")

/-- cleanupOldDiffs(maxAge): readdir the diff directory (readdirOk models
whether that first step resolves), run the loop, and catch any rejection,
only logging it: the rejection message is discarded, so the caller always
gets a normal return, with the directory in whatever state the loop
reached. maxAge is a JS number, so Infinity is a possible argument:
WithTop Int. -/
def cleanupOldDiffs (readdirOk : Bool) (now : Int) (maxAge : WithTop Int)
    (files : List DiffFile) : List DiffFile :=
  if readdirOk then (cleanupLoop now maxAge files).1 else files

/-- A scan in which every per-file stat and unlink resolves. -/
@[reducible] def faultFree (files : List DiffFile) : Prop :=
  ∀ f ∈ files, f.statOk = true ∧ f.unlinkOk = true

/-- A diff artifact whose mtime equals the scan instant used below. -/
def dfFresh : DiffFile :=
  { name := "run1-home.png", mtime := 1000, statOk := true, unlinkOk := true }

/-- An old artifact whose stat and unlink resolve. -/
def dfOld : DiffFile :=
  { name := "run1-a.png", mtime := 0, statOk := true, unlinkOk := true }

/-- An old artifact whose unlink rejects during this scan. -/
def dfStuck : DiffFile :=
  { name := "run1-b.png", mtime := 0, statOk := true, unlinkOk := false }

/-- An old artifact listed after the faulting one. -/
def dfTail : DiffFile :=
  { name := "run1-c.png", mtime := 0, statOk := true, unlinkOk := true }

/-- Number.prototype.toFixed(2) for the nonnegative finite values that occur
in the report: round to two decimals, half away from zero, and render with a
dot. -/
def toFixed2 (q : ℚ) : String :=
  toString (Int.floor (q * 100 + 1 / 2) / 100) ++ "." ++
    (if (Int.floor (q * 100 + 1 / 2) % 100).toNat < 10 then "0" else "") ++
    toString ((Int.floor (q * 100 + 1 / 2) % 100).toNat)

/-- The Diff % table cell of the report: comparison.diffPercentage is used
as a JS truthiness test, and a number is falsy exactly when it is zero, so
the cell reads N/A for a zero percentage and toFixed(2) plus a percent sign
otherwise. -/
def diffPercentCell (dp : ℚ) : String :=
  if dp ≠ 0 then toFixed2 dp ++ "%" else "N/A"

/-- The status glyph of one report row. -/
def statusGlyph : Status → String
  | Status.passed => "✅"
  | Status.failed => "❌"
  | Status.new => "📸"
  | Status.error => "⚠️"

/-- One row of the Detailed Results table of the report. -/
def reportRow (o : Outcome) : String :=
  "| " ++ o.filename ++ " | " ++ statusGlyph o.status ++ " | " ++
    diffPercentCell o.diffPercentage ++ " | [Baseline](" ++ basename o.baseline ++
    ") | [Current](" ++ basename o.current ++ ") | " ++
    (match o.diff with
     | some d => "[Diff](" ++ basename d ++ ")"
     | none => "N/A") ++ " |"

/-- A 1 by 1 RGBA image used by the concrete runs below. -/
def img1 : FileContent := FileContent.png 1 1 [10, 20, 30, 255]

/-- A 1 by 2 image and its transpose, used for dimension mismatches. -/
def img12 : FileContent := FileContent.png 1 2 [0, 0, 0, 255, 255, 255, 255, 255]

def img21 : FileContent := FileContent.png 2 1 [0, 0, 0, 255, 255, 255, 255, 255]

/-- The environment of the program as it runs: the decoding step is loadPNG
with the fs/promises binding, the pixel counter is the concrete admissible
instance, and the directories are as the constructor builds them. -/
def envRun : Env :=
  { load := loadPNG
    dc := exactDiffCount
    baselineDir := "baselines"
    diffDir := "reports/run1/diffs" }

/-- An empty directory state. -/
def st0 : VRState := { baselines := [], diffs := [] }

/-- A store already holding a baseline named home.png. -/
def stHome : VRState := { baselines := [("home.png", img1)], diffs := [] }

/-- A store whose baseline home.png is 1 by 2. -/
def stMM : VRState := { baselines := [("home.png", img12)], diffs := [] }

/-- A capture of home.png identical to the stored baseline. -/
def shotHome : Screenshot := { path := "caps/home.png", content := some img1 }

/-- A capture of home.png whose dimensions are transposed against stMM. -/
def shotMM : Screenshot := { path := "caps/home.png", content := some img21 }

/-- A readable capture of a filename with no baseline. -/
def shotLogin : Screenshot := { path := "caps/login.png", content := some img1 }

/-- The outcome that adopting shotLogin into an empty store produces. -/
def outcomeLogin : Outcome :=
  { filename := "login.png"
    status := Status.new
    baseline := "baselines/login.png"
    current := "caps/login.png"
    diff := none
    diffPercentage := 0
    error := none }

/-- The baseline existence test of the loop is exactly the lookup test on
the store, and it never throws. -/
theorem fileExists_fsAccess (bs : List (String × FileContent)) (f : String) :
    fileExists (fsAccess bs f) = Except.ok (bs.lookup f).isSome := by
  unfold fileExists fsAccess
  by_cases h : (bs.lookup f).isSome <;> simp [h]

/-- The state component of runLoop does not depend on the accumulator. -/
theorem runLoop_fst (env : Env) (runId : String) :
    ∀ (shots : List Screenshot) (st : VRState) (acc : Results),
      (runLoop env runId st acc shots).1 = runState env runId st shots := by
  intro shots
  induction shots with
  | nil => intro st acc; rfl
  | cons s rest ih => intro st acc; simp [runLoop, runState, ih]

/-- The comparisons list of runLoop extends the accumulator by the outcome
of each capture, in input order. -/
theorem runLoop_comparisons (env : Env) (runId : String) :
    ∀ (shots : List Screenshot) (st : VRState) (acc : Results),
      (runLoop env runId st acc shots).2.comparisons
        = acc.comparisons ++ runOutcomes env runId st shots := by
  intro shots
  induction shots with
  | nil => intro st acc; simp [runLoop, runOutcomes]
  | cons s rest ih =>
      intro st acc
      simp [runLoop, runOutcomes, ih, pushOutcome]

/-- One outcome is produced for every capture. -/
theorem runOutcomes_length (env : Env) (runId : String) :
    ∀ (shots : List Screenshot) (st : VRState),
      (runOutcomes env runId st shots).length = shots.length := by
  intro shots
  induction shots with
  | nil => intro st; rfl
  | cons s rest ih => intro st; simp [runOutcomes, ih]

/-- Outcomes of an appended run split at the intermediate state. -/
theorem runOutcomes_append (env : Env) (runId : String) :
    ∀ (xs ys : List Screenshot) (st : VRState),
      runOutcomes env runId st (xs ++ ys)
        = runOutcomes env runId st xs
          ++ runOutcomes env runId (runState env runId st xs) ys := by
  intro xs
  induction xs with
  | nil => intro ys st; simp [runOutcomes, runState]
  | cons s rest ih => intro ys st; simp [runOutcomes, runState, ih]

/-- Generic counter lemma: any results field that pushOutcome bumps by a
predicate accumulates the countP of that predicate over the outcomes. -/
theorem runLoop_count (env : Env) (runId : String) (g : Results → Nat)
    (p : Outcome → Bool)
    (hg : ∀ r o, g (pushOutcome r o) = g r + (if p o then 1 else 0)) :
    ∀ (shots : List Screenshot) (st : VRState) (acc : Results),
      g (runLoop env runId st acc shots).2
        = g acc + (runOutcomes env runId st shots).countP p := by
  intro shots
  induction shots with
  | nil => intro st acc; simp [runLoop, runOutcomes]
  | cons s rest ih =>
      intro st acc
      simp only [runLoop, runOutcomes, List.countP_cons]
      rw [ih, hg]
      omega

/-- Every outcome list splits its length by the three counter predicates:
each status falls in exactly one of passed, failed-or-error, new. -/
theorem length_split (l : List Outcome) :
    l.length
      = l.countP (fun o => decide (o.status = Status.passed))
        + l.countP isFailedOrError
        + l.countP (fun o => decide (o.status = Status.new)) := by
  induction l with
  | nil => rfl
  | cons o rest ih =>
      rcases h : o.status <;>
        simp [List.countP_cons, h, isFailedOrError, ih] <;> omega

/-- C1: for every run of compareScreenshots the returned summary satisfies
total = passed + failed + new, and the failed counter counts exactly the
outcomes whose status is failed or error, so an error outcome increments
failed rather than a counter of its own. -/
theorem compareScreenshots_counter_invariant (env : Env) (st : VRState)
    (shots : List Screenshot) (runId : String) :
    (compareScreenshots env st shots runId).2.total
      = (compareScreenshots env st shots runId).2.passed
        + (compareScreenshots env st shots runId).2.failed
        + (compareScreenshots env st shots runId).2.new
    ∧ (compareScreenshots env st shots runId).2.failed
      = ((compareScreenshots env st shots runId).2.comparisons).countP isFailedOrError := by
  have h1 : (compareScreenshots env st shots runId).2.total
      = (runOutcomes env runId st shots).length := by
    unfold compareScreenshots
    rw [runLoop_count env runId Results.total (fun _ => true)
      (by intro r o; simp [pushOutcome]) shots st emptyResults]
    simp [emptyResults]
  have h2 : (compareScreenshots env st shots runId).2.passed
      = (runOutcomes env runId st shots).countP (fun o => decide (o.status = Status.passed)) := by
    unfold compareScreenshots
    rw [runLoop_count env runId Results.passed (fun o => decide (o.status = Status.passed))
      (by intro r o; by_cases h : o.status = Status.passed <;> simp [pushOutcome, h])
      shots st emptyResults]
    simp [emptyResults]
  have h3 : (compareScreenshots env st shots runId).2.failed
      = (runOutcomes env runId st shots).countP isFailedOrError := by
    unfold compareScreenshots
    rw [runLoop_count env runId Results.failed isFailedOrError
      (by intro r o; simp [pushOutcome]) shots st emptyResults]
    simp [emptyResults]
  have h4 : (compareScreenshots env st shots runId).2.new
      = (runOutcomes env runId st shots).countP (fun o => decide (o.status = Status.new)) := by
    unfold compareScreenshots
    rw [runLoop_count env runId Results.new (fun o => decide (o.status = Status.new))
      (by intro r o; by_cases h : o.status = Status.new <;> simp [pushOutcome, h])
      shots st emptyResults]
    simp [emptyResults]
  have h5 : (compareScreenshots env st shots runId).2.comparisons
      = runOutcomes env runId st shots := by
    unfold compareScreenshots
    rw [runLoop_comparisons env runId shots st emptyResults]
    simp [emptyResults]
  exact ⟨by rw [h1, h2, h3, h4]; exact length_split (runOutcomes env runId st shots),
    by rw [h3, h5]⟩

/-- Conversion: the comparisons of a full run are the runOutcomes. -/
theorem compareScreenshots_comparisons (env : Env) (st : VRState)
    (shots : List Screenshot) (runId : String) :
    (compareScreenshots env st shots runId).2.comparisons
      = runOutcomes env runId st shots := by
  unfold compareScreenshots
  rw [runLoop_comparisons env runId shots st emptyResults]
  simp [emptyResults]

/-- Conversion: the final state of a full run is the runState. -/
theorem compareScreenshots_fst (env : Env) (st : VRState)
    (shots : List Screenshot) (runId : String) :
    (compareScreenshots env st shots runId).1 = runState env runId st shots := by
  unfold compareScreenshots
  exact runLoop_fst env runId shots st emptyResults

/-- One processing step either leaves the baseline store untouched or conses
one freshly adopted entry whose filename was absent. -/
theorem process_baselines (env : Env) (runId : String) (st : VRState)
    (shot : Screenshot) :
    ((processScreenshot env runId st shot).1).baselines = st.baselines
    ∨ ∃ c, shot.content = some c
        ∧ st.baselines.lookup (basename shot.path) = none
        ∧ ((processScreenshot env runId st shot).1).baselines
            = (basename shot.path, c) :: st.baselines := by
  rcases hb : st.baselines.lookup (basename shot.path) with _ | bc
  · rcases hc : shot.content with _ | c
    · left; simp [processScreenshot, hb, hc]
    · right; exact ⟨c, rfl, rfl, by simp [processScreenshot, hb, hc]⟩
  · left
    rcases hcmp : compareImages env shot.content bc
        (diffArtifactPath env.diffDir runId (basename shot.path)) with msg | r
    · simp [processScreenshot, hb, hcmp]
    · by_cases hp : r.passed <;> simp [processScreenshot, hb, hcmp, hp]

/-- An existing baseline entry survives one processing step unchanged. -/
theorem process_preserves_lookup (env : Env) (runId : String) (st : VRState)
    (shot : Screenshot) (f : String) (c : FileContent)
    (h : st.baselines.lookup f = some c) :
    ((processScreenshot env runId st shot).1).baselines.lookup f = some c := by
  rcases process_baselines env runId st shot with heq | ⟨d, hc, hb, heq⟩
  · rw [heq]; exact h
  · rw [heq]
    have hne : (f == basename shot.path) = false := by
      by_cases hfe : f = basename shot.path
      · rw [← hfe, h] at hb; cases hb
      · simp [hfe]
    simp [List.lookup, hne, h]

/-- An existing baseline entry survives a whole run unchanged. -/
theorem runState_preserves_lookup (env : Env) (runId : String) :
    ∀ (shots : List Screenshot) (st : VRState) (f : String) (c : FileContent),
      st.baselines.lookup f = some c →
      ((runState env runId st shots).baselines).lookup f = some c := by
  intro shots
  induction shots with
  | nil => intro st f c h; exact h
  | cons s rest ih =>
      intro st f c h
      simp only [runState]
      exact ih _ f c (process_preserves_lookup env runId st s f c h)

/-- C9: for every filename whose baseline already exists, a run of
compareScreenshots leaves that baseline entry unchanged; comparison never
writes to an existing baseline path. -/
theorem compareScreenshots_preserves_existing_baselines (env : Env)
    (st : VRState) (shots : List Screenshot) (runId : String)
    (f : String) (c : FileContent)
    (h : st.baselines.lookup f = some c) :
    ((compareScreenshots env st shots runId).1).baselines.lookup f = some c := by
  rw [compareScreenshots_fst]
  exact runState_preserves_lookup env runId shots st f c h

/-- Witness for C9 at a concrete run: the stored home.png baseline is intact
after comparing a capture of the same name. -/
theorem compareScreenshots_preserves_existing_baselines_witness :
    stHome.baselines.lookup "home.png" = some img1
    ∧ ((compareScreenshots envRun stHome [shotHome] "run1").1).baselines.lookup "home.png"
        = some img1 :=
  ⟨by decide,
   compareScreenshots_preserves_existing_baselines envRun stHome [shotHome] "run1"
     "home.png" img1 (by decide)⟩

/-- Under the fs/promises binding of the source, every compareImages call
rejects before reaching the pixel comparison. -/
theorem compareImages_loadPNG (env : Env) (hload : env.load = loadPNG)
    (current : Option FileContent) (bc : FileContent) (dp : String) :
    compareImages env current bc dp
      = Except.error "fs.createReadStream is not a function" := by
  unfold compareImages
  rw [hload]
  rfl

/-- When a baseline exists and compareImages rejects, the catch block
produces the error outcome and the directory state is untouched. -/
theorem process_compare_error (env : Env) (runId : String) (st : VRState)
    (shot : Screenshot) (bc : FileContent) (msg : String)
    (hb : st.baselines.lookup (basename shot.path) = some bc)
    (hcmp : compareImages env shot.content bc
        (diffArtifactPath env.diffDir runId (basename shot.path)) = Except.error msg) :
    (processScreenshot env runId st shot).2
      = mkErrorOutcome (basename shot.path)
          (baselineFilePath env.baselineDir (basename shot.path)) shot.path msg
    ∧ (processScreenshot env runId st shot).1 = st := by
  constructor <;> simp [processScreenshot, hb, hcmp]

/-- Indexing an appended list at the length of its left part. -/
theorem getElem_append_len {α : Type} (l1 : List α) (x : α) (l2 : List α) :
    (l1 ++ x :: l2)[l1.length]? = some x := by
  induction l1 with
  | nil => simp
  | cons a t ih => simpa using ih

/-- The outcome at position i of a run is the step outcome of capture i,
taken at the state the preceding captures produced. -/
theorem runOutcome_at (env : Env) (runId : String) (st : VRState)
    (pre : List Screenshot) (s : Screenshot) (post : List Screenshot) :
    (runOutcomes env runId st (pre ++ s :: post))[pre.length]?
      = some (processScreenshot env runId (runState env runId st pre) s).2 := by
  rw [runOutcomes_append]
  have hlen := runOutcomes_length env runId pre st
  rw [← hlen]
  have hcons : runOutcomes env runId (runState env runId st pre) (s :: post)
      = (processScreenshot env runId (runState env runId st pre) s).2
        :: runOutcomes env runId
             (processScreenshot env runId (runState env runId st pre) s).1 post := rfl
  rw [hcons]
  exact getElem_append_len _ _ _

/-- C3 (the code at the failing input): with a stored baseline home.png and
an identical same-dimension capture of home.png, the run records the outcome
as status error with diffPercentage 100 and the TypeError message of the
missing fs/promises stream constructor, and nothing passes; the claimed
computation diffPixels / (width * height) * 100 with the 5 percent pass
threshold is never reached. -/
theorem existing_baseline_comparison_errors :
    ((compareScreenshots envRun stHome [shotHome] "run1").2.comparisons.map
        (fun o => (o.status, o.diffPercentage, o.error)))
      = [(Status.error, (100 : ℚ), some "fs.createReadStream is not a function")]
    ∧ (compareScreenshots envRun stHome [shotHome] "run1").2.passed = 0
    ∧ (compareScreenshots envRun stHome [shotHome] "run1").2.failed = 1 := by
  refine ⟨by decide, by decide, by decide⟩

/-- C4: for a capture whose baseline exists with different width or height,
the run produces an outcome with status error and diffPercentage 100, and
the remaining captures are still processed (one outcome per capture). Under
the fs/promises binding every comparison against an existing baseline takes
the catch path, the dimension-mismatch case included. -/
theorem dimension_mismatch_outcome (env : Env) (st : VRState)
    (pre post : List Screenshot) (s : Screenshot) (runId : String)
    (bw bh w h : Nat) (bd d : List Nat)
    (hload : env.load = loadPNG)
    (hb : st.baselines.lookup (basename s.path) = some (FileContent.png bw bh bd))
    (hc : s.content = some (FileContent.png w h d))
    (hdim : w ≠ bw ∨ h ≠ bh) :
    (∃ o, ((compareScreenshots env st (pre ++ s :: post) runId).2.comparisons)[pre.length]?
          = some o
        ∧ o.status = Status.error ∧ o.diffPercentage = 100)
    ∧ (compareScreenshots env st (pre ++ s :: post) runId).2.comparisons.length
        = (pre ++ s :: post).length := by
  have hb2 : (runState env runId st pre).baselines.lookup (basename s.path)
      = some (FileContent.png bw bh bd) :=
    runState_preserves_lookup env runId pre st _ _ hb
  have hout := (process_compare_error env runId (runState env runId st pre) s
    (FileContent.png bw bh bd) "fs.createReadStream is not a function" hb2
    (compareImages_loadPNG env hload _ _ _)).1
  constructor
  · refine ⟨(processScreenshot env runId (runState env runId st pre) s).2, ?_, ?_, ?_⟩
    · rw [compareScreenshots_comparisons]
      exact runOutcome_at env runId st pre s post
    · rw [hout]; rfl
    · rw [hout]; rfl
  · rw [compareScreenshots_comparisons]
    rw [runOutcomes_length]

/-- Witness for C4: a 2 by 1 capture against a stored 1 by 2 baseline of the
same name yields the error outcome with diffPercentage 100 and the run
completes. -/
theorem dimension_mismatch_outcome_witness :
    envRun.load = loadPNG
    ∧ stMM.baselines.lookup (basename shotMM.path) = some (FileContent.png 1 2 [0, 0, 0, 255, 255, 255, 255, 255])
    ∧ shotMM.content = some (FileContent.png 2 1 [0, 0, 0, 255, 255, 255, 255, 255])
    ∧ ((2 ≠ 1 ∨ 1 ≠ 2)
    ∧ ((∃ o, ((compareScreenshots envRun stMM ([] ++ shotMM :: []) "run1").2.comparisons)[(List.length ([] : List Screenshot))]?
          = some o
        ∧ o.status = Status.error ∧ o.diffPercentage = 100)
    ∧ (compareScreenshots envRun stMM ([] ++ shotMM :: []) "run1").2.comparisons.length
        = ([] ++ shotMM :: []).length)) :=
  ⟨rfl, by decide, by decide,
   ⟨by decide,
    dimension_mismatch_outcome envRun stMM [] [] shotMM "run1" 1 2 2 1
      [0, 0, 0, 255, 255, 255, 255, 255] [0, 0, 0, 255, 255, 255, 255, 255]
      rfl (by decide) (by decide) (by decide)⟩⟩

/-- C5: when the decode or compare of one capture rejects, the loop catches
the failure, records an outcome with status error, diffPercentage 100 and
the captured message, and the remaining captures are still processed; the
loop body is total, so no single capture failure aborts the run. -/
theorem compare_failure_contained (env : Env) (st : VRState)
    (pre post : List Screenshot) (s : Screenshot) (runId : String)
    (bc : FileContent) (msg : String)
    (hb : st.baselines.lookup (basename s.path) = some bc)
    (hfail : compareImages env s.content bc
        (diffArtifactPath env.diffDir runId (basename s.path)) = Except.error msg) :
    (∃ o, ((compareScreenshots env st (pre ++ s :: post) runId).2.comparisons)[pre.length]?
          = some o
        ∧ o.status = Status.error ∧ o.diffPercentage = 100 ∧ o.error = some msg)
    ∧ (compareScreenshots env st (pre ++ s :: post) runId).2.comparisons.length
        = (pre ++ s :: post).length
    ∧ (compareScreenshots env st (pre ++ s :: post) runId).2.total
        = (pre ++ s :: post).length := by
  have hb2 : (runState env runId st pre).baselines.lookup (basename s.path) = some bc :=
    runState_preserves_lookup env runId pre st _ _ hb
  have hout := (process_compare_error env runId (runState env runId st pre) s bc msg hb2 hfail).1
  refine ⟨⟨(processScreenshot env runId (runState env runId st pre) s).2, ?_, ?_, ?_, ?_⟩, ?_, ?_⟩
  · rw [compareScreenshots_comparisons]
    exact runOutcome_at env runId st pre s post
  · rw [hout]; rfl
  · rw [hout]; rfl
  · rw [hout]; rfl
  · rw [compareScreenshots_comparisons, runOutcomes_length]
  · unfold compareScreenshots
    rw [runLoop_count env runId Results.total (fun _ => true)
      (by intro r o; simp [pushOutcome]) (pre ++ s :: post) st emptyResults]
    simp [emptyResults, runOutcomes_length]

/-- Witness for C5: the concrete run whose comparison rejects with the
missing stream constructor message. -/
theorem compare_failure_contained_witness :
    stHome.baselines.lookup (basename shotHome.path) = some img1
    ∧ compareImages envRun shotHome.content img1
        (diffArtifactPath envRun.diffDir "run1" (basename shotHome.path))
        = Except.error "fs.createReadStream is not a function"
    ∧ ((∃ o : Outcome, ((compareScreenshots envRun stHome ([] ++ shotHome :: []) "run1").2.comparisons)[(List.length ([] : List Screenshot))]?
          = some o
        ∧ o.status = Status.error ∧ o.diffPercentage = 100
        ∧ o.error = some "fs.createReadStream is not a function")
    ∧ (compareScreenshots envRun stHome ([] ++ shotHome :: []) "run1").2.comparisons.length
        = ([] ++ shotHome :: []).length
    ∧ (compareScreenshots envRun stHome ([] ++ shotHome :: []) "run1").2.total
        = ([] ++ shotHome :: []).length) :=
  ⟨by decide, rfl,
   compare_failure_contained envRun stHome [] [] shotHome "run1" img1
     "fs.createReadStream is not a function" (by decide) rfl⟩

/-- A filename stays absent from the store across a step that does not
adopt it: the capture has another basename, or its path is unreadable. -/
theorem process_absent_lookup (env : Env) (runId : String) (st : VRState)
    (shot : Screenshot) (f : String)
    (habs : st.baselines.lookup f = none)
    (hnot : basename shot.path ≠ f ∨ shot.content = none) :
    ((processScreenshot env runId st shot).1).baselines.lookup f = none := by
  rcases process_baselines env runId st shot with heq | ⟨d, hc, hb, heq⟩
  · rw [heq]; exact habs
  · rw [heq]
    rcases hnot with hne | hcn
    · have hbe : (f == basename shot.path) = false := by
        simp [Ne.symm hne]
      simp [List.lookup, hbe, habs]
    · rw [hcn] at hc; cases hc

/-- A readable capture of an absent filename takes the adoption branch: the
outcome is new with diffPercentage 0 and no diff, and the capture content is
now stored under its basename. -/
theorem process_adopt (env : Env) (runId : String) (st : VRState)
    (shot : Screenshot) (c : FileContent)
    (habs : st.baselines.lookup (basename shot.path) = none)
    (hc : shot.content = some c) :
    (processScreenshot env runId st shot).2
      = { filename := basename shot.path
          status := Status.new
          baseline := baselineFilePath env.baselineDir (basename shot.path)
          current := shot.path
          diff := none
          diffPercentage := 0
          error := none }
    ∧ ((processScreenshot env runId st shot).1).baselines.lookup (basename shot.path)
        = some c := by
  constructor
  · simp [processScreenshot, habs, hc]
  · simp [processScreenshot, habs, hc, List.lookup]

/-- Run-level adoption: when a filename is absent from the store and some
readable capture of that basename is in the run, the run contains a new
outcome for it with diffPercentage 0 and no diff, and afterwards the store
holds a baseline of that name. -/
theorem adopt_run (env : Env) (runId : String) :
    ∀ (shots : List Screenshot) (st : VRState) (f : String),
      st.baselines.lookup f = none →
      (∃ s, s ∈ shots ∧ basename s.path = f ∧ ∃ d, s.content = some d) →
      (∃ o, o ∈ runOutcomes env runId st shots ∧ o.filename = f
          ∧ o.status = Status.new ∧ o.diffPercentage = 0 ∧ o.diff = none)
      ∧ (((runState env runId st shots).baselines.lookup f).isSome = true) := by
  intro shots
  induction shots with
  | nil =>
      rintro st f habs ⟨s, hs, hname, d, hd⟩
      exact absurd hs (List.not_mem_nil s)
  | cons s0 rest ih =>
      rintro st f habs ⟨s, hs, hname, d, hd⟩
      by_cases hn0 : basename s0.path = f
      · rcases hc0 : s0.content with _ | c0
        · -- unreadable capture of f: error outcome, f still absent, the
          -- readable witness is in the tail
          have habs2 := process_absent_lookup env runId st s0 f habs (Or.inr hc0)
          have hsrest : s ∈ rest := by
            rcases List.mem_cons.mp hs with heq | hr
            · rw [heq] at hd; rw [hd] at hc0; cases hc0
            · exact hr
          have hrec := ih (processScreenshot env runId st s0).1 f habs2
            ⟨s, hsrest, hname, d, hd⟩
          refine ⟨?_, ?_⟩
          · rcases hrec.1 with ⟨o, ho, hrest⟩
            exact ⟨o, List.mem_cons_of_mem _ ho, hrest⟩
          · simp only [runState]
            exact hrec.2
        · -- readable capture of the absent f: adoption takes place here
          have had := process_adopt env runId st s0 c0 (by rw [hn0]; exact habs) hc0
          refine ⟨⟨(processScreenshot env runId st s0).2, ?_, ?_, ?_, ?_, ?_⟩, ?_⟩
          · exact List.mem_cons_self _ _
          · rw [had.1]; exact hn0
          · rw [had.1]
          · rw [had.1]
          · rw [had.1]
          · simp only [runState]
            have h2 : ((processScreenshot env runId st s0).1).baselines.lookup f
                = some c0 := by rw [← hn0]; exact had.2
            rw [runState_preserves_lookup env runId rest _ f c0 h2]
            rfl
      · -- a capture of another filename: f stays absent, the witness is in
        -- the tail
        have habs2 := process_absent_lookup env runId st s0 f habs (Or.inl hn0)
        have hsrest : s ∈ rest := by
          rcases List.mem_cons.mp hs with hexq | hr
          · rw [hexq] at hname; exact absurd hname hn0
          · exact hr
        have hrec := ih (processScreenshot env runId st s0).1 f habs2
          ⟨s, hsrest, hname, d, hd⟩
        refine ⟨?_, ?_⟩
        · rcases hrec.1 with ⟨o, ho, hrest⟩
          exact ⟨o, List.mem_cons_of_mem _ ho, hrest⟩
        · simp only [runState]
          exact hrec.2

/-- C2: for a readable capture whose filename has no baseline in the store,
compareScreenshots adopts the capture, records a new outcome with
diffPercentage 0 and no diff artifact, and afterwards fileExists on the
baseline path, the hasBaseline test, answers true for that filename. -/
theorem compareScreenshots_adopts_new (env : Env) (st : VRState)
    (shots : List Screenshot) (runId : String) (f : String)
    (habs : st.baselines.lookup f = none)
    (hmem : ∃ s, s ∈ shots ∧ basename s.path = f ∧ ∃ d, s.content = some d) :
    (∃ o, o ∈ (compareScreenshots env st shots runId).2.comparisons
        ∧ o.filename = f ∧ o.status = Status.new
        ∧ o.diffPercentage = 0 ∧ o.diff = none)
    ∧ fileExists (fsAccess ((compareScreenshots env st shots runId).1).baselines f)
        = Except.ok true := by
  have hrec := adopt_run env runId shots st f habs hmem
  constructor
  · rw [compareScreenshots_comparisons]
    exact hrec.1
  · rw [compareScreenshots_fst, fileExists_fsAccess, hrec.2]

/-- Witness for C2: adopting login.png into an empty store. -/
theorem compareScreenshots_adopts_new_witness :
    st0.baselines.lookup "login.png" = none
    ∧ (∃ s, s ∈ [shotLogin] ∧ basename s.path = "login.png" ∧ ∃ d, s.content = some d)
    ∧ ((∃ o, o ∈ (compareScreenshots envRun st0 [shotLogin] "run1").2.comparisons
        ∧ o.filename = "login.png" ∧ o.status = Status.new
        ∧ o.diffPercentage = 0 ∧ o.diff = none)
    ∧ fileExists (fsAccess ((compareScreenshots envRun st0 [shotLogin] "run1").1).baselines "login.png")
        = Except.ok true) :=
  ⟨rfl, ⟨shotLogin, List.mem_cons_self _ _, by decide, img1, rfl⟩,
   compareScreenshots_adopts_new envRun st0 [shotLogin] "run1" "login.png" rfl
     ⟨shotLogin, List.mem_cons_self _ _, by decide, img1, rfl⟩⟩

/-- Per-step diff bookkeeping: the diff store grows exactly by the diff
field of the produced outcome, the diff field is the run-and-filename keyed
artifact path exactly on status failed, and is null on every other status. -/
theorem process_diffs (env : Env) (runId : String) (st : VRState)
    (shot : Screenshot) :
    ((processScreenshot env runId st shot).1).diffs
      = st.diffs ++ ((processScreenshot env runId st shot).2.diff).toList
    ∧ ((processScreenshot env runId st shot).2.status = Status.failed →
        (processScreenshot env runId st shot).2.diff
          = some (diffArtifactPath env.diffDir runId
              ((processScreenshot env runId st shot).2.filename)))
    ∧ ((processScreenshot env runId st shot).2.status ≠ Status.failed →
        (processScreenshot env runId st shot).2.diff = none) := by
  rcases hb : st.baselines.lookup (basename shot.path) with _ | bc
  · rcases hc : shot.content with _ | c
    · refine ⟨?_, ?_, ?_⟩ <;> simp [processScreenshot, hb, hc, mkErrorOutcome]
    · refine ⟨?_, ?_, ?_⟩ <;> simp [processScreenshot, hb, hc]
  · rcases hcmp : compareImages env shot.content bc
        (diffArtifactPath env.diffDir runId (basename shot.path)) with msg | r
    · refine ⟨?_, ?_, ?_⟩ <;> simp [processScreenshot, hb, hcmp, mkErrorOutcome]
    · by_cases hp : r.passed <;>
        refine ⟨?_, ?_, ?_⟩ <;> simp [processScreenshot, hb, hcmp, hp]

/-- Run-level diff bookkeeping: the diff store after a run holds exactly the
previous artifacts followed by the diff paths of the failed outcomes, and
every outcome carries its artifact path iff its status is failed. -/
theorem diffs_run (env : Env) (runId : String) :
    ∀ (shots : List Screenshot) (st : VRState),
      (runState env runId st shots).diffs
        = st.diffs ++ (runOutcomes env runId st shots).filterMap (fun o => o.diff)
      ∧ ∀ o ∈ runOutcomes env runId st shots,
          (o.status = Status.failed →
            o.diff = some (diffArtifactPath env.diffDir runId o.filename))
          ∧ (o.status ≠ Status.failed → o.diff = none) := by
  intro shots
  induction shots with
  | nil => intro st; simp [runState, runOutcomes]
  | cons s rest ih =>
      intro st
      have hstep := process_diffs env runId st s
      have hrest := ih (processScreenshot env runId st s).1
      constructor
      · simp only [runState, runOutcomes, List.filterMap_cons]
        rw [hrest.1, hstep.1]
        rcases hd : (processScreenshot env runId st s).2.diff with _ | dpath <;>
          simp [hd, List.append_assoc]
      · intro o ho
        rcases List.mem_cons.mp ho with heq | hr
        · rw [heq]
          exact ⟨hstep.2.1, hstep.2.2⟩
        · exact hrest.2 o hr

/-- C6 counterexample: a run whose single outcome has status error writes no
diff artifact at all and leaves the diff field null, although the claim
asserts an artifact for lower-level comparison errors. -/
theorem error_outcome_without_diff_artifact :
    ((compareScreenshots envRun stHome [shotHome] "run1").2.comparisons.map
        (fun o => (o.status, o.diff)))
      = [(Status.error, (none : Option String))]
    ∧ ((compareScreenshots envRun stHome [shotHome] "run1").1).diffs = [] := by
  refine ⟨by decide, by decide⟩

/-- C6 as amended: diff artifacts are persisted exactly for outcomes
classified failed, under the diffs subdirectory of the reports directory at
the run-and-filename keyed path; outcomes classified passed, new or error
have a null diff field and no artifact is written for them. -/
theorem diff_artifact_exactly_for_failed (env : Env) (st : VRState)
    (shots : List Screenshot) (runId : String) (reportsDir : String)
    (hdir : env.diffDir = mkDiffDir reportsDir) :
    ((compareScreenshots env st shots runId).1).diffs
      = st.diffs
        ++ ((compareScreenshots env st shots runId).2.comparisons).filterMap
             (fun o => o.diff)
    ∧ ∀ o ∈ (compareScreenshots env st shots runId).2.comparisons,
        (o.status = Status.failed →
          o.diff = some (diffArtifactPath (mkDiffDir reportsDir) runId o.filename))
        ∧ (o.status ≠ Status.failed → o.diff = none) := by
  have hrun := diffs_run env runId shots st
  constructor
  · rw [compareScreenshots_fst, compareScreenshots_comparisons]
    exact hrun.1
  · rw [compareScreenshots_comparisons]
    intro o ho
    rw [← hdir]
    exact hrun.2 o ho

/-- Witness for C6 as amended, at the concrete erroring run: the
characterization applies with reportsDir reports/run1, and no artifact is
written there. -/
theorem diff_artifact_exactly_for_failed_witness :
    envRun.diffDir = mkDiffDir "reports/run1"
    ∧ (((compareScreenshots envRun stHome [shotHome] "run1").1).diffs
      = stHome.diffs
        ++ ((compareScreenshots envRun stHome [shotHome] "run1").2.comparisons).filterMap
             (fun o => o.diff)
    ∧ ∀ o ∈ (compareScreenshots envRun stHome [shotHome] "run1").2.comparisons,
        (o.status = Status.failed →
          o.diff = some (diffArtifactPath (mkDiffDir "reports/run1") "run1" o.filename))
        ∧ (o.status ≠ Status.failed → o.diff = none)) :=
  ⟨rfl, diff_artifact_exactly_for_failed envRun stHome [shotHome] "run1"
    "reports/run1" rfl⟩

/-- With maxAge Infinity the age test never fires. -/
theorem isExpired_top (now : Int) (f : DiffFile) : isExpired now ⊤ f = false := by
  unfold isExpired
  exact decide_eq_false not_top_lt

/-- With maxAge 0 a file survives the age test iff its mtime is at or after
the scan instant. -/
theorem isExpired_zero (now : Int) (f : DiffFile) :
    (!isExpired now ((0 : Int) : WithTop Int) f) = decide (now ≤ f.mtime) := by
  unfold isExpired
  rw [← decide_not]
  apply decide_eq_decide.mpr
  rw [gt_iff_lt, WithTop.coe_lt_coe]
  omega

/-- A fault-free scan deletes exactly the artifacts strictly older than
maxAge. -/
theorem cleanupLoop_faultFree (now : Int) (maxAge : WithTop Int) :
    ∀ (files : List DiffFile), faultFree files →
      (cleanupLoop now maxAge files).1
        = files.filter (fun f => !isExpired now maxAge f) := by
  intro files
  induction files with
  | nil => intro h; simp [cleanupLoop]
  | cons f rest ih =>
      intro h
      have hf := h f (List.mem_cons_self _ _)
      have hrest : faultFree rest := fun g hg => h g (List.mem_cons_of_mem _ hg)
      rcases hage : isExpired now maxAge f with _ | _ <;>
        simp [cleanupLoop, hf.1, hf.2, hage, ih hrest, List.filter_cons]

/-- Whatever the fault pattern, with maxAge Infinity nothing is deleted. -/
theorem cleanupLoop_top (now : Int) :
    ∀ (files : List DiffFile), (cleanupLoop now ⊤ files).1 = files := by
  intro files
  induction files with
  | nil => rfl
  | cons f rest ih =>
      rcases hst : f.statOk with _ | _
      · simp [cleanupLoop, hst]
      · simp [cleanupLoop, hst, isExpired_top, ih]

/-- When the first per-file fault is at g, after a fault-free prefix, the
scan deletes exactly the strictly-older prefix files and then aborts to the
catch, leaving g and the unvisited tail in place. -/
theorem cleanupLoop_abort (now : Int) (maxAge : WithTop Int) :
    ∀ (pre : List DiffFile) (g : DiffFile) (post : List DiffFile),
      faultFree pre →
      (g.statOk = false
        ∨ (g.statOk = true ∧ isExpired now maxAge g = true ∧ g.unlinkOk = false)) →
      (cleanupLoop now maxAge (pre ++ g :: post)).1
        = pre.filter (fun f => !isExpired now maxAge f) ++ g :: post := by
  intro pre
  induction pre with
  | nil =>
      intro g post _ hg
      rcases hg with hst | ⟨hst, hage, hul⟩
      · simp [cleanupLoop, hst]
      · simp [cleanupLoop, hst, hage, hul]
  | cons f pre2 ih =>
      intro g post hff hg
      have hf := hff f (List.mem_cons_self _ _)
      have hff2 : faultFree pre2 := fun x hx => hff x (List.mem_cons_of_mem _ hx)
      rcases hage : isExpired now maxAge f with _ | _ <;>
        simp [cleanupLoop, hf.1, hf.2, hage, ih g post hff2 hg, List.filter_cons]

/-- C7 counterexample: with maxAge 0, an artifact whose mtime equals the
scan instant is kept even by a fault-free scan, because the deletion test
is strictly now - mtime > maxAge; the claim that maxAge 0 deletes all
existing artifacts fails on it. -/
theorem cleanup_zero_keeps_fresh_artifact :
    cleanupOldDiffs true 1000 ((0 : Int) : WithTop Int) [dfFresh] = [dfFresh] := by
  decide

/-- A mid-scan fault leaves a partial deletion: of three artifacts all
strictly older than maxAge, the first is unlinked, the unlink of the second
rejects, and the catch then leaves the second and third in place, so the
scan deleted neither all of them nor none. -/
theorem cleanup_partial_deletion :
    cleanupOldDiffs true 1000 ((10 : Int) : WithTop Int) [dfOld, dfStuck, dfTail]
      = [dfStuck, dfTail] := by
  decide

/-- C7 as amended: a scan whose per-file stats and unlinks all resolve
deletes exactly the artifacts with now - mtime strictly greater than
maxAge; maxAge Infinity deletes none whatever the fault pattern; with a
fault-free scan, maxAge 0 keeps exactly the artifacts whose mtime is at or
after the scan instant; a failing readdir is caught with nothing deleted;
and a per-file stat or unlink rejection is caught after the fault-free
prefix was processed, so the artifacts already unlinked stay deleted while
the faulting file and the unvisited tail remain — in every case the call
returns normally. -/
theorem cleanup_retention_policy (now : Int) (maxAge : WithTop Int)
    (files : List DiffFile) :
    (faultFree files →
      cleanupOldDiffs true now maxAge files
        = files.filter (fun f => !isExpired now maxAge f))
    ∧ cleanupOldDiffs true now ⊤ files = files
    ∧ (faultFree files →
      cleanupOldDiffs true now ((0 : Int) : WithTop Int) files
        = files.filter (fun f => decide (now ≤ f.mtime)))
    ∧ cleanupOldDiffs false now maxAge files = files
    ∧ (∀ (pre : List DiffFile) (g : DiffFile) (post : List DiffFile),
        files = pre ++ g :: post →
        faultFree pre →
        (g.statOk = false
          ∨ (g.statOk = true ∧ isExpired now maxAge g = true ∧ g.unlinkOk = false)) →
        cleanupOldDiffs true now maxAge files
          = pre.filter (fun f => !isExpired now maxAge f) ++ g :: post) := by
  refine ⟨?_, ?_, ?_, ?_, ?_⟩
  · intro hff
    show (cleanupLoop now maxAge files).1 = _
    exact cleanupLoop_faultFree now maxAge files hff
  · show (cleanupLoop now ⊤ files).1 = _
    exact cleanupLoop_top now files
  · intro hff
    show (cleanupLoop now ((0 : Int) : WithTop Int) files).1 = _
    rw [cleanupLoop_faultFree now _ files hff]
    apply List.filter_congr
    intro f hf
    exact isExpired_zero now f
  · rfl
  · intro pre g post heq hff hg
    rw [heq]
    show (cleanupLoop now maxAge (pre ++ g :: post)).1 = _
    exact cleanupLoop_abort now maxAge pre g post hff hg

/-- Witness for C7 as amended: a concrete fault-free scan deleting both old
artifacts, and the concrete partially-deleting scan, both obtained from the
policy theorem with its hypotheses discharged. -/
theorem cleanup_retention_policy_witness :
    (faultFree [dfOld, dfTail]
    ∧ cleanupOldDiffs true 1000 ((10 : Int) : WithTop Int) [dfOld, dfTail]
        = [dfOld, dfTail].filter
            (fun f => !isExpired 1000 ((10 : Int) : WithTop Int) f))
    ∧ ([dfOld, dfStuck, dfTail] = [dfOld] ++ dfStuck :: [dfTail]
    ∧ faultFree [dfOld]
    ∧ (dfStuck.statOk = false
        ∨ (dfStuck.statOk = true
            ∧ isExpired 1000 ((10 : Int) : WithTop Int) dfStuck = true
            ∧ dfStuck.unlinkOk = false))
    ∧ cleanupOldDiffs true 1000 ((10 : Int) : WithTop Int) [dfOld, dfStuck, dfTail]
        = [dfOld].filter (fun f => !isExpired 1000 ((10 : Int) : WithTop Int) f)
          ++ dfStuck :: [dfTail]) :=
  ⟨⟨by decide,
    (cleanup_retention_policy 1000 ((10 : Int) : WithTop Int) [dfOld, dfTail]).1
      (by decide)⟩,
   rfl, by decide, by decide,
   (cleanup_retention_policy 1000 ((10 : Int) : WithTop Int)
       [dfOld, dfStuck, dfTail]).2.2.2.2 [dfOld] dfStuck [dfTail] rfl
     (by decide) (by decide)⟩

/-- C8 counterexample: for an access failure other than not-found, the
fileExists catch silently returns false instead of rethrowing. -/
theorem fileExists_returns_false_on_other_errors :
    fileExists (AccessResult.otherError "EACCES: permission denied")
      = Except.ok false := rfl

/-- C8 as amended: fileExists never throws at all; it resolves with true
exactly when the access succeeds and with false on every failure, not-found
or otherwise. -/
theorem fileExists_never_throws (r : AccessResult) :
    (∃ b, fileExists r = Except.ok b)
    ∧ (fileExists r = Except.ok true ↔ r = AccessResult.ok) := by
  rcases r <;> simp [fileExists]

/-- Every new outcome of a step carries diffPercentage 0. -/
theorem process_new_dp_zero (env : Env) (runId : String) (st : VRState)
    (shot : Screenshot)
    (h : (processScreenshot env runId st shot).2.status = Status.new) :
    (processScreenshot env runId st shot).2.diffPercentage = 0 := by
  rcases hb : st.baselines.lookup (basename shot.path) with _ | bc
  · rcases hc : shot.content with _ | c
    · simp [processScreenshot, hb, hc, mkErrorOutcome] at h
    · simp [processScreenshot, hb, hc]
  · rcases hcmp : compareImages env shot.content bc
        (diffArtifactPath env.diffDir runId (basename shot.path)) with msg | r
    · simp [processScreenshot, hb, hcmp, mkErrorOutcome] at h
    · by_cases hp : r.passed <;> simp [processScreenshot, hb, hcmp, hp] at h

/-- Every new outcome of a run carries diffPercentage 0. -/
theorem run_new_dp_zero (env : Env) (runId : String) :
    ∀ (shots : List Screenshot) (st : VRState),
      ∀ o ∈ runOutcomes env runId st shots,
        o.status = Status.new → o.diffPercentage = 0 := by
  intro shots
  induction shots with
  | nil => intro st o ho; simp [runOutcomes] at ho
  | cons s rest ih =>
      intro st o ho hnew
      rcases List.mem_cons.mp ho with heq | hr
      · rw [heq]; rw [heq] at hnew
        exact process_new_dp_zero env runId st s hnew
      · exact ih _ o hr hnew

/-- C10: in the report table, the Diff % cell of an outcome reads N/A
exactly when its diffPercentage is 0 — in particular for every new outcome —
and otherwise shows the percentage to two decimals with a percent sign. -/
theorem report_diff_percent_formatting (env : Env) (st : VRState)
    (shots : List Screenshot) (runId : String) :
    ∀ o ∈ (compareScreenshots env st shots runId).2.comparisons,
      (o.status = Status.new → diffPercentCell o.diffPercentage = "N/A")
      ∧ (o.diffPercentage = 0 → diffPercentCell o.diffPercentage = "N/A")
      ∧ (o.diffPercentage ≠ 0 →
          diffPercentCell o.diffPercentage = toFixed2 o.diffPercentage ++ "%") := by
  intro o ho
  rw [compareScreenshots_comparisons] at ho
  refine ⟨?_, ?_, ?_⟩
  · intro hnew
    have h0 := run_new_dp_zero env runId shots st o ho hnew
    simp [diffPercentCell, h0]
  · intro h0; simp [diffPercentCell, h0]
  · intro hne; simp [diffPercentCell, hne]

/-- Witness for C10 at the concrete adoption run: the new outcome for
login.png renders N/A. -/
theorem report_diff_percent_formatting_witness :
    outcomeLogin ∈ (compareScreenshots envRun st0 [shotLogin] "run1").2.comparisons
    ∧ ((outcomeLogin.status = Status.new →
          diffPercentCell outcomeLogin.diffPercentage = "N/A")
    ∧ (outcomeLogin.diffPercentage = 0 →
          diffPercentCell outcomeLogin.diffPercentage = "N/A")
    ∧ (outcomeLogin.diffPercentage ≠ 0 →
          diffPercentCell outcomeLogin.diffPercentage
            = toFixed2 outcomeLogin.diffPercentage ++ "%")) :=
  ⟨by decide,
   report_diff_percent_formatting envRun st0 [shotLogin] "run1" outcomeLogin
     (by decide)⟩

end ValidateMe
